import Mathlib

/-!
Verification of the SP(k) suppression model (`pyspk`), a shallow embedding of
`src/pyspk/model.py` over the real numbers.

Modelling conventions:
* numpy float arrays become `List ℝ`, or per-index functions `ℕ → ·` where the
  source works elementwise; IEEE NaN is modelled by `Option ℝ` with `none` for
  NaN, and comparisons against `none` are `false`, matching numpy semantics;
* `raise` becomes `Except SpkError`; the generic Python `Exception`s are mapped
  to the spec's error taxonomy (InvalidInput, OutOfCalibrationRange,
  InvalidConfiguration, MissingParameter) by raise site;
* `warnings.warn` calls are collected in a list attached to a successful
  result (a call that raises after warning drops the warning; no claim
  observes that combination);
* `np.power`/`**` on reals is `Real.rpow`, `np.log10` is `Real.logb 10`,
  `np.round(·, 6)` is rounding half-to-even at six decimals (`round6`);
* the module `pyspk.fit_vals` imported by `model.py` is not under `src/`:
  the 11-parameter polynomial coefficient table is taken from the in-repo
  variant (`src/pyspk/__init__.py`, identical structure), and the fitting-limit
  table is modelled from the spec (see `specLimitInterp`);
* the scipy `Akima1DInterpolator` used for tabulated baryon fractions is an
  external collaborator: its constructor is an explicit argument `mkInterp`
  (returning `none` when construction raises), and the constructed
  interpolant is a function `ℝ → Option ℝ` returning `none` (NaN) outside the
  data range;
* the `errors=True` branch (scipy `LinearNDInterpolator` over a bundled CSV)
  and `verbose` printing are outside every claim and are not modelled.
-/

namespace Spk

/-- Error taxonomy of the spec (§7), mapped onto the raise sites of
`model.py`. -/
inductive SpkError where
  | invalidInput
  | outOfCalibrationRange
  | invalidConfiguration
  | missingParameter
deriving DecidableEq

/-- Non-fatal warnings emitted by `model.py` (message text is presentation
detail and is not modelled). -/
inductive SpkWarning where
  | lowZ
  | highKmax
  | fbBelowMin
  | fbAboveMax
deriving DecidableEq

/-- A coefficient triple `[c0, c1, c2]` of the degree-2 polynomials used for
the shape parameters (`_poly_2` is evaluated on such a list). -/
structure Coeffs where
  c0 : ℝ
  c1 : ℝ
  c2 : ℝ

/-- The 11 named coefficient triples of one overdensity's entry in
`best_fit_vals`. -/
structure ParamTable where
  alpha : Coeffs
  beta : Coeffs
  gamma : Coeffs
  lambda_a : Coeffs
  lambda_b : Coeffs
  mu_a : Coeffs
  mu_b : Coeffs
  mu_c : Coeffs
  nu_a : Coeffs
  nu_b : Coeffs
  nu_c : Coeffs

/-- `best_fit_vals['200']`.  The module `pyspk.fit_vals` is not under `src/`;
these values are the repository's own coefficient table from the in-repo
variant `src/pyspk/__init__.py` (`_fit_vals['200']`), which has the same 11
keys and triple-of-floats layout. -/
noncomputable def table200 : ParamTable where
  alpha := ⟨15.274930840056541, -1.245047539257722, 0.14540677973676638⟩
  beta := ⟨14.930101598751966, -1.062673017386771, 0.12120874422958225⟩
  gamma := ⟨0.973317059802909, -0.3341132933728971, 0.147971236001855⟩
  lambda_a := ⟨0.03257049282030497, -0.012994181725415443, 0.0016012935859615331⟩
  lambda_b := ⟨2.936213543501669, 0.4647835283419599, 0.015469588056462733⟩
  mu_a := ⟨0.7185313695191637, -0.17419453040304703, 0.04344834913957274⟩
  mu_b := ⟨7.061473347061119, -2.6451585009317475, 0.693874112309198⟩
  mu_c := ⟨9.72782645402674, -6.692331015886623, 1.3184537648431263⟩
  nu_a := ⟨659.6062166482205, 190.65546760275708, 25.12315520958482⟩
  nu_b := ⟨-10.627984535501893, 0.38934321021631624, 0.2461189904914769⟩
  nu_c := ⟨3.153654283048472, -0.13183283346451197, -0.07021924767085688⟩

/-- `best_fit_vals['500']`, from `src/pyspk/__init__.py` (`_fit_vals['500']`). -/
noncomputable def table500 : ParamTable where
  alpha := ⟨14.76469953943553, -0.9861664024147414, 0.11918239669227224⟩
  beta := ⟨14.61129247278941, -0.9086389425569597, 0.10810207298747473⟩
  gamma := ⟨0.8419196246836991, 0.06967440823217347, 0.014730497492187217⟩
  lambda_a := ⟨0.019909493214134613, -0.006723408341682784, 0.0007220653696607669⟩
  lambda_b := ⟨3.04279503307814, 0.5256217945904988, 0.00660016011437811⟩
  mu_a := ⟨0.6875723754738109, -0.15501931108472428, 0.04106325613876646⟩
  mu_b := ⟨4.372736593576084, 0.4034162144260609, -0.02740227359038959⟩
  mu_c := ⟨5.514096648948588, -2.8918746793434114, 0.5961162742741664⟩
  nu_a := ⟨585.1128565518618, 867.0756296967672, 38.90230731032294⟩
  nu_b := ⟨-11.243766644267883, -0.09618413993416547, 0.3767515346494691⟩
  nu_c := ⟨3.3546510607155344, -0.12716883213945795, -0.08194814244409948⟩

/-- `best_fit_vals[str(SO)]`: the dictionary keyed by the string form of the
overdensity; `none` models a `KeyError` on an unsupported key. -/
noncomputable def best_fit_vals (SO : ℕ) : Option ParamTable :=
  if SO = 200 then some table200 else if SO = 500 then some table500 else none

/-- `_poly_2(x, vals) = vals[2]*x**2 + vals[1]*x + vals[0]` (model.py line 51). -/
noncomputable def poly_2 (x : ℝ) (vals : Coeffs) : ℝ :=
  vals.c2 * x ^ 2 + vals.c1 * x + vals.c0

/-- The 11 evaluated shape parameters of the model at one `(SO, z)`. -/
structure Params where
  alpha : ℝ
  beta : ℝ
  gamma : ℝ
  lambda_a : ℝ
  lambda_b : ℝ
  mu_a : ℝ
  mu_b : ℝ
  mu_c : ℝ
  nu_a : ℝ
  nu_b : ℝ
  nu_c : ℝ

/-- The loop body of `_get_params`: every entry of the table evaluated by
`_poly_2` at `1 + z` (model.py lines 226-229). -/
noncomputable def paramsFrom (T : ParamTable) (z : ℝ) : Params where
  alpha := poly_2 (1 + z) T.alpha
  beta := poly_2 (1 + z) T.beta
  gamma := poly_2 (1 + z) T.gamma
  lambda_a := poly_2 (1 + z) T.lambda_a
  lambda_b := poly_2 (1 + z) T.lambda_b
  mu_a := poly_2 (1 + z) T.mu_a
  mu_b := poly_2 (1 + z) T.mu_b
  mu_c := poly_2 (1 + z) T.mu_c
  nu_a := poly_2 (1 + z) T.nu_a
  nu_b := poly_2 (1 + z) T.nu_b
  nu_c := poly_2 (1 + z) T.nu_c

/-- `_get_params(SO, z)` (model.py lines 210-235): a `KeyError` on the
dictionary lookup is caught and re-raised; per the spec taxonomy this is the
InvalidConfiguration error (unsupported overdensity). -/
noncomputable def get_params (SO : ℕ) (z : ℝ) : Except SpkError Params :=
  match best_fit_vals SO with
  | some T => .ok (paramsFrom T z)
  | none => .error .invalidConfiguration

/-- `_optimal_mass_funct(k, params)` (model.py line 71):
`alpha - (alpha - beta) * k ** gamma`, giving log10 of the optimal mass. -/
noncomputable def optimal_mass_funct (k : ℝ) (p : Params) : ℝ :=
  p.alpha - (p.alpha - p.beta) * k ^ p.gamma

/-- `_lambda_funct(x, params)` (model.py line 125). -/
noncomputable def lambda_funct (x : ℝ) (p : Params) : ℝ :=
  1 + p.lambda_a * Real.exp (p.lambda_b * x)

/-- `_mu_funct(x, params)` (model.py lines 145-148). -/
noncomputable def mu_funct (x : ℝ) (p : Params) : ℝ :=
  p.mu_a + (1 - p.mu_a) / (1 + Real.exp (p.mu_b * x + p.mu_c))

/-- `_nu_func(x, params)` (model.py lines 168-170). -/
noncomputable def nu_func (x : ℝ) (p : Params) : ℝ :=
  p.nu_a * Real.exp (-(1 / 2) * ((x - p.nu_b) / p.nu_c) ^ 2)

/-- `np.max` over a list; `np.max` of an empty array raises, the `0` default
here is a modelling artifact never relied upon (theorems assume `k ≠ []`). -/
noncomputable def listMax : List ℝ → ℝ
  | [] => 0
  | x :: xs => xs.foldl max x

/-- `optimal_mass(SO, z, k)` (model.py lines 75-106): hard error above
`k = 12`, soft warning above `k = 8`, then `10 ** _optimal_mass_funct`.
In the source the `k_max > 8` warning is emitted before `_get_params` can
raise; warnings are attached to the successful result only. -/
noncomputable def optimal_mass (SO : ℕ) (z : ℝ) (k : List ℝ) :
    Except SpkError (List ℝ × List SpkWarning) :=
  if 12 < listMax k then .error .outOfCalibrationRange
  else
    match get_params SO z with
    | .error e => .error e
    | .ok p =>
        .ok (k.map (fun ki => (10 : ℝ) ^ optimal_mass_funct ki p),
             if 8 < listMax k then [SpkWarning.highKmax] else [])

/-- The six redshift-interpolated fitting-limit coefficient functions of one
overdensity: the value of `Akima1DInterpolator(limits[SO][z], limits[SO][c])`
at a redshift, `none` standing for the NaN returned outside the tabulated
range. -/
structure LimitInterp where
  min_x0 : ℝ → Option ℝ
  min_x1 : ℝ → Option ℝ
  min_x2 : ℝ → Option ℝ
  max_x0 : ℝ → Option ℝ
  max_x1 : ℝ → Option ℝ
  max_x2 : ℝ → Option ℝ

/-- One fitting-limit bound `10 ** (c0 + c1*log10(M) + c2*log10(M)**2)`
(model.py lines 204-205); NaN coefficients propagate to a NaN bound. -/
noncomputable def limitBound (c0 c1 c2 : Option ℝ) (M : ℝ) : Option ℝ :=
  match c0, c1, c2 with
  | some a, some b, some c =>
      some ((10 : ℝ) ^ (a + b * Real.logb 10 M + c * Real.logb 10 M ^ 2))
  | _, _, _ => none

/-- The lower fitting limit at one halo mass. -/
noncomputable def loAt (L : LimitInterp) (z M : ℝ) : Option ℝ :=
  limitBound (L.min_x0 z) (L.min_x1 z) (L.min_x2 z) M

/-- The upper fitting limit at one halo mass. -/
noncomputable def hiAt (L : LimitInterp) (z M : ℝ) : Option ℝ :=
  limitBound (L.max_x0 z) (L.max_x1 z) (L.max_x2 z) M

/-- `get_limits(SO, z, m_halo)` (model.py lines 174-207).  The dictionary
lookup `_limits[str(SO)]` is not guarded by any `try`, so an unsupported
overdensity raises (`KeyError`, i.e. InvalidConfiguration); the table of
interpolators is an explicit argument `limTab` since `fit_vals.limits` is not
under `src/`. -/
noncomputable def get_limits (limTab : ℕ → Option LimitInterp) (SO : ℕ) (z : ℝ)
    (m_halo : List ℝ) : Except SpkError (List (Option ℝ) × List (Option ℝ)) :=
  match limTab SO with
  | none => .error .invalidConfiguration
  | some t => .ok (m_halo.map (loAt t z), m_halo.map (hiAt t z))

/-- Modelled from the spec: the `limits` table of `pyspk.fit_vals` and its
scipy Akima interpolators are not under `src/`.  Per spec §4.5/§3 each
overdensity has six redshift-interpolated coefficients, defined on the
tabulated redshift coverage (the calibration range, modelled as `[0, 3]`) and
NaN outside it; the spec records no numeric coefficient values, so
representative constants are used (lower bound `10^(-8)`, upper `10^2`,
mass-independent). -/
noncomputable def specLimitInterp : LimitInterp where
  min_x0 := fun z => if 0 ≤ z ∧ z ≤ 3 then some (-8) else none
  min_x1 := fun z => if 0 ≤ z ∧ z ≤ 3 then some 0 else none
  min_x2 := fun z => if 0 ≤ z ∧ z ≤ 3 then some 0 else none
  max_x0 := fun z => if 0 ≤ z ∧ z ≤ 3 then some 2 else none
  max_x1 := fun z => if 0 ≤ z ∧ z ≤ 3 then some 0 else none
  max_x2 := fun z => if 0 ≤ z ∧ z ≤ 3 then some 0 else none

/-- Modelled from the spec: the `limits` dictionary keyed like
`best_fit_vals` by the two supported overdensities. -/
noncomputable def specLimits (SO : ℕ) : Option LimitInterp :=
  if SO = 200 ∨ SO = 500 then some specLimitInterp else none

/-- `_power_law(m_halo, fb_a, fb_pow, fb_pivot)` (model.py line 31):
`fb_a * (m_halo / fb_pivot) ** fb_pow`. -/
noncomputable def power_law (m_halo fb_a fb_pow fb_pivot : ℝ) : ℝ :=
  fb_a * (m_halo / fb_pivot) ^ fb_pow

/-- Python truthiness of an optional float: `None` and `0.0` are falsy.  The
mode test `if fb_a or fb_pow:` (model.py line 326) uses this. -/
noncomputable def truthyB : Option ℝ → Bool
  | none => false
  | some x => decide (x ≠ 0)

/-- `f_b < min_fb` elementwise with numpy NaN semantics: a comparison against
NaN is `false`. -/
noncomputable def outMinB (f lo : Option ℝ) : Bool :=
  match f, lo with
  | some x, some l => decide (x < l)
  | _, _ => false

/-- `f_b > max_fb` elementwise with numpy NaN semantics. -/
noncomputable def outMaxB (f hi : Option ℝ) : Bool :=
  match f, hi with
  | some x, some h => decide (h < x)
  | _, _ => false

/-- The baryon-fraction resolution of `sup_model` (model.py lines 326-346):
power-law mode when `fb_a or fb_pow` is truthy (a `TypeError` from a `None`
operand is caught and re-raised as the MissingParameter error), otherwise
tabulated mode through the external Akima constructor `mkInterp` over
`(log10 M_halo, log10 fb)` (any constructor exception, including `None`
arguments, is caught and re-raised as MissingParameter).  The result is the
per-index baryon fraction at the optimal mass `bm i`. -/
noncomputable def resolveFb (fb_a fb_pow : Option ℝ) (fb_pivot : ℝ)
    (M_halo fb : Option (List ℝ))
    (mkInterp : Bool → List ℝ → List ℝ → Option (ℝ → Option ℝ))
    (extrapolate : Bool) (bm : ℕ → ℝ) : Except SpkError (ℕ → Option ℝ) :=
  if truthyB fb_a || truthyB fb_pow then
    match fb_a, fb_pow with
    | some a, some pw =>
        .ok (fun i => some (power_law ((10 : ℝ) ^ bm i) a pw fb_pivot))
    | _, _ => .error .missingParameter
  else
    match M_halo, fb with
    | some ms, some fbs =>
        match mkInterp extrapolate (ms.map (Real.logb 10)) (fbs.map (Real.logb 10)) with
        | some itp => .ok (fun i => (itp (bm i)).map (fun y => (10 : ℝ) ^ y))
        | none => .error .missingParameter
    | _, _ => .error .missingParameter

/-- numpy `round` at six decimals rounds half to even; `roundHalfEven y` is
that rounding of `y` to an integer. -/
noncomputable def roundHalfEven (y : ℝ) : ℤ :=
  if Int.fract y = 1 / 2 then (if Even ⌊y⌋ then ⌊y⌋ else ⌊y⌋ + 1) else round y

/-- `np.round(x, 6)` (model.py line 321). -/
noncomputable def round6 (x : ℝ) : ℝ :=
  (roundHalfEven (x * 10 ^ 6) : ℝ) / 10 ^ 6

/-- The `i`-th point of `np.logspace(np.log10(k_min), np.log10(k_max), n)`
before rounding: `10 ** (a + i*(b-a)/(n-1))` with `a, b` the log10 endpoints
(for `n = 1` numpy returns the start point; the junk value `(b-a)/0 = 0` of
real division makes the formula agree). -/
noncomputable def kExact (k_min k_max : ℝ) (n i : ℕ) : ℝ :=
  (10 : ℝ) ^ (Real.logb 10 k_min +
    (i : ℝ) * (Real.logb 10 k_max - Real.logb 10 k_min) / ((n : ℝ) - 1))

/-- The `i`-th wavenumber of the grid `np.round(np.logspace(...), 6)`. -/
noncomputable def kAt (k_min k_max : ℝ) (n i : ℕ) : ℝ :=
  round6 (kExact k_min k_max n i)

/-- The full wavenumber grid `k` of `sup_model` (model.py line 321). -/
noncomputable def kGrid (k_min k_max : ℝ) (n : ℕ) : List ℝ :=
  (List.range n).map (kAt k_min k_max n)

/-- One entry of the returned suppression array: the elementwise
`sup = x0 - (x0 - x1) * exp(-x2 * f_b)` (model.py line 375) followed by the
mask assignment `sup[mask] = NaN` (line 377); a NaN baryon fraction
propagates to NaN through the arithmetic. -/
noncomputable def supEntry (p : Params) (x : ℝ) (f lo hi : Option ℝ) : Option ℝ :=
  if outMinB f lo || outMaxB f hi then none
  else f.map (fun fv =>
    lambda_funct x p - (lambda_funct x p - mu_funct x p) * Real.exp (-nu_func x p * fv))

/-- The two out-of-limits warnings of `sup_model` (model.py lines 355-367):
one warning when any point is below the lower limit, one when

any point is above the upper limit. -/
noncomputable def fbWarnings (n : ℕ) (fbF loF hiF : ℕ → Option ℝ) : List SpkWarning :=
  (if (List.range n).any (fun i => outMinB (fbF i) (loF i)) then [SpkWarning.fbBelowMin] else []) ++
  (if (List.range n).any (fun i => outMaxB (fbF i) (hiF i)) then [SpkWarning.fbAboveMax] else [])

/-- `sup_model` (model.py lines 238-398) with `errors=False`: fail-fast
validation, parameter evaluation, wavenumber grid, optimal mass, baryon
fraction, fitting limits, suppression assembly with masking.  `limTab` is
the (absent from `src/`) `limits` interpolator table and `mkInterp` the
external Akima constructor, as documented above. -/
noncomputable def sup_model (limTab : ℕ → Option LimitInterp)
    (mkInterp : Bool → List ℝ → List ℝ → Option (ℝ → Option ℝ))
    (SO : ℕ) (z : ℝ) (fb_a fb_pow : Option ℝ) (fb_pivot : ℝ)
    (M_halo fb : Option (List ℝ)) (extrapolate : Bool)
    (k_min k_max : ℝ) (n : ℕ) :
    Except SpkError (List ℝ × List (Option ℝ) × List SpkWarning) :=
  if z < 0 then .error .invalidInput
  else if 3 < z then .error .outOfCalibrationRange
  else if 12 < k_max then .error .outOfCalibrationRange
  else
    match get_params SO z with
    | .error e => .error e
    | .ok p =>
        let bm : ℕ → ℝ := fun i => optimal_mass_funct (kAt k_min k_max n i) p
        match resolveFb fb_a fb_pow fb_pivot M_halo fb mkInterp extrapolate bm with
        | .error e => .error e
        | .ok fbF =>
            match get_limits limTab SO z ((List.range n).map (fun i => (10 : ℝ) ^ bm i)) with
            | .error e => .error e
            | .ok (los, his) =>
                let loF : ℕ → Option ℝ := fun i => los.getD i none
                let hiF : ℕ → Option ℝ := fun i => his.getD i none
                .ok (kGrid k_min k_max n,
                     (List.range n).map (fun i =>
                       supEntry p (Real.logb 10 (kAt k_min k_max n i)) (fbF i) (loF i) (hiF i)),
                     (if z < 0.125 then [SpkWarning.lowZ] else []) ++
                     (if 8 < k_max then [SpkWarning.highKmax] else []) ++
                     fbWarnings n fbF loF hiF)

/-- The wavenumber component of a `sup_model` result. -/
def kOf : Except SpkError (List ℝ × List (Option ℝ) × List SpkWarning) → List ℝ
  | .ok r => r.1
  | .error _ => []

/-- The suppression component of a `sup_model` result. -/
def supOf : Except SpkError (List ℝ × List (Option ℝ) × List SpkWarning) → List (Option ℝ)
  | .ok r => r.2.1
  | .error _ => []

/-- The warnings component of a `sup_model` result. -/
def warnsOf : Except SpkError (List ℝ × List (Option ℝ) × List SpkWarning) → List SpkWarning
  | .ok r => r.2.2
  | .error _ => []

/-- Whether a call returned normally. -/
def isOk {ε α : Type} : Except ε α → Bool
  | .ok _ => true
  | .error _ => false

/-! ### Basic facts about the embedded definitions -/

theorem best_fit_vals_200 : best_fit_vals 200 = some table200 := rfl

theorem best_fit_vals_500 : best_fit_vals 500 = some table500 := rfl

theorem best_fit_vals_eq_none {SO : ℕ} (h1 : SO ≠ 200) (h2 : SO ≠ 500) :
    best_fit_vals SO = none := by
  simp [best_fit_vals, h1, h2]

theorem specLimits_200 : specLimits 200 = some specLimitInterp := by
  simp [specLimits]

theorem specLimits_eq_none {SO : ℕ} (h1 : SO ≠ 200) (h2 : SO ≠ 500) :
    specLimits SO = none := by
  simp [specLimits, h1, h2]

theorem truthyB_some {x : ℝ} : truthyB (some x) = true ↔ x ≠ 0 := by
  simp [truthyB]

theorem truthyB_some_eq_false {x : ℝ} : truthyB (some x) = false ↔ x = 0 := by
  simp [truthyB]

theorem outMinB_some_some {x l : ℝ} : outMinB (some x) (some l) = decide (x < l) := rfl

theorem outMaxB_some_some {x h : ℝ} : outMaxB (some x) (some h) = decide (h < x) := rfl

theorem outMinB_none_fb {lo : Option ℝ} : outMinB none lo = false := by
  cases lo <;> rfl

theorem outMaxB_none_fb {hi : Option ℝ} : outMaxB none hi = false := by
  cases hi <;> rfl

theorem outMinB_none_lo {f : Option ℝ} : outMinB f none = false := by
  cases f <;> rfl

theorem outMaxB_none_hi {f : Option ℝ} : outMaxB f none = false := by
  cases f <;> rfl

theorem getD_map_range {α : Type} {n i : ℕ} (f : ℕ → α) (d : α) (hi : i < n) :
    (((List.range n).map f).getD i d) = f i := by
  simp [List.getD_eq_getElem?_getD, List.getElem?_map, List.getElem?_range, hi]

theorem getElem?_map_range {α : Type} {n i : ℕ} (f : ℕ → α) (hi : i < n) :
    ((List.range n).map f)[i]? = some (f i) := by
  simp [List.getElem?_map, List.getElem?_range, hi]

theorem any_range_congr {n : ℕ} {f g : ℕ → Bool} (h : ∀ i, i < n → f i = g i) :
    (List.range n).any f = (List.range n).any g := by
  induction n with
  | zero => rfl
  | succ m ih =>
      rw [List.range_succ, List.any_append, List.any_append,
        ih (fun i hi => h i (Nat.lt_succ_of_lt hi))]
      simp [h m (Nat.lt_succ_self m)]

theorem fbWarnings_congr {n : ℕ} {fbF loF hiF loF' hiF' : ℕ → Option ℝ}
    (hlo : ∀ i, i < n → loF i = loF' i) (hhi : ∀ i, i < n → hiF i = hiF' i) :
    fbWarnings n fbF loF hiF = fbWarnings n fbF loF' hiF' := by
  unfold fbWarnings
  have h1 : ((List.range n).any fun i => outMinB (fbF i) (loF i)) =
      ((List.range n).any fun i => outMinB (fbF i) (loF' i)) :=
    any_range_congr (fun i hi => by rw [hlo i hi])
  have h2 : ((List.range n).any fun i => outMaxB (fbF i) (hiF i)) =
      ((List.range n).any fun i => outMaxB (fbF i) (hiF' i)) :=
    any_range_congr (fun i hi => by rw [hhi i hi])
  rw [h1, h2]

theorem get_params_error {SO : ℕ} {z : ℝ} {e : SpkError}
    (h : get_params SO z = .error e) : e = .invalidConfiguration := by
  unfold get_params at h
  cases hb : best_fit_vals SO <;> rw [hb] at h <;> simp_all

theorem resolveFb_error {fb_a fb_pow : Option ℝ} {piv : ℝ} {Mh fbt : Option (List ℝ)}
    {mk : Bool → List ℝ → List ℝ → Option (ℝ → Option ℝ)} {ex : Bool} {bm : ℕ → ℝ}
    {e : SpkError} (h : resolveFb fb_a fb_pow piv Mh fbt mk ex bm = .error e) :
    e = .missingParameter := by
  unfold resolveFb at h
  split at h
  · split at h <;> simp_all
  · split at h
    · split at h <;> simp_all
    · simp_all

theorem get_limits_error {limTab : ℕ → Option LimitInterp} {SO : ℕ} {z : ℝ}
    {ms : List ℝ} {e : SpkError} (h : get_limits limTab SO z ms = .error e) :
    e = .invalidConfiguration := by
  unfold get_limits at h
  cases hb : limTab SO <;> rw [hb] at h <;> simp_all

theorem truthyB_of_ne {a : ℝ} (ha : a ≠ 0) : truthyB (some a) = true := by
  simp [truthyB, ha]

/-- Power-law mode of the baryon-fraction resolver: when the truthiness test
passes and both parameters are present, the result is the elementwise power
law at `10 ** best_mass`. -/
theorem resolveFb_powerlaw {a pw piv : ℝ} {Mh fbt : Option (List ℝ)}
    {mk : Bool → List ℝ → List ℝ → Option (ℝ → Option ℝ)} {ex : Bool} {bm : ℕ → ℝ}
    (htr : (truthyB (some a) || truthyB (some pw)) = true) :
    resolveFb (some a) (some pw) piv Mh fbt mk ex bm =
      .ok (fun i => some (power_law ((10 : ℝ) ^ bm i) a pw piv)) := by
  simp only [resolveFb, htr, if_true]

/-- In power-law mode the tabulated arguments, the interpolator constructor
and the extrapolation flag are never consulted. -/
theorem resolveFb_truthy_irrel {fb_a fb_pow : Option ℝ} {piv : ℝ}
    {Mh fbt Mh' fbt' : Option (List ℝ)}
    {mk mk' : Bool → List ℝ → List ℝ → Option (ℝ → Option ℝ)} {ex ex' : Bool} {bm : ℕ → ℝ}
    (htr : (truthyB fb_a || truthyB fb_pow) = true) :
    resolveFb fb_a fb_pow piv Mh fbt mk ex bm =
      resolveFb fb_a fb_pow piv Mh' fbt' mk' ex' bm := by
  simp only [resolveFb, htr, if_true]

/-- Tabulated mode of the baryon-fraction resolver with a successfully built
interpolator. -/
theorem resolveFb_tabulated {fb_a fb_pow : Option ℝ} {piv : ℝ} {ms fbs : List ℝ}
    {mk : Bool → List ℝ → List ℝ → Option (ℝ → Option ℝ)} {ex : Bool} {bm : ℕ → ℝ}
    {itp : ℝ → Option ℝ}
    (hfa : truthyB fb_a = false) (hfp : truthyB fb_pow = false)
    (hmk : mk ex (ms.map (Real.logb 10)) (fbs.map (Real.logb 10)) = some itp) :
    resolveFb fb_a fb_pow piv (some ms) (some fbs) mk ex bm =
      .ok (fun i => (itp (bm i)).map (fun y => (10 : ℝ) ^ y)) := by
  simp only [resolveFb, hfa, hfp, Bool.or_self, Bool.false_eq_true, if_false, hmk]

/-- The characterization of a successful `sup_model` call: validation has
passed, the parameter table and limit table entries exist, and the baryon
fraction resolved; the result is the rounded log-uniform grid, the per-index
assembled suppression, and the collected warnings. -/
theorem sup_model_ok {limTab : ℕ → Option LimitInterp}
    {mk : Bool → List ℝ → List ℝ → Option (ℝ → Option ℝ)}
    {SO : ℕ} {z : ℝ} {fb_a fb_pow : Option ℝ} {piv : ℝ} {Mh fbt : Option (List ℝ)}
    {ex : Bool} {k_min k_max : ℝ} {n : ℕ} {T : ParamTable} {L : LimitInterp}
    {fbF : ℕ → Option ℝ}
    (hz0 : 0 ≤ z) (hz3 : z ≤ 3) (hk : k_max ≤ 12)
    (hbf : best_fit_vals SO = some T) (hlim : limTab SO = some L)
    (hres : resolveFb fb_a fb_pow piv Mh fbt mk ex
      (fun i => optimal_mass_funct (kAt k_min k_max n i) (paramsFrom T z)) = .ok fbF) :
    sup_model limTab mk SO z fb_a fb_pow piv Mh fbt ex k_min k_max n =
      .ok (kGrid k_min k_max n,
        (List.range n).map (fun i =>
          supEntry (paramsFrom T z) (Real.logb 10 (kAt k_min k_max n i)) (fbF i)
            (loAt L z ((10 : ℝ) ^ optimal_mass_funct (kAt k_min k_max n i) (paramsFrom T z)))
            (hiAt L z ((10 : ℝ) ^ optimal_mass_funct (kAt k_min k_max n i) (paramsFrom T z)))),
        (if z < 0.125 then [SpkWarning.lowZ] else []) ++
        (if 8 < k_max then [SpkWarning.highKmax] else []) ++
        fbWarnings n fbF
          (fun i => loAt L z ((10 : ℝ) ^ optimal_mass_funct (kAt k_min k_max n i) (paramsFrom T z)))
          (fun i => hiAt L z ((10 : ℝ) ^ optimal_mass_funct (kAt k_min k_max n i) (paramsFrom T z)))) := by
  unfold sup_model
  rw [if_neg (not_lt.mpr hz0), if_neg (not_lt.mpr hz3), if_neg (not_lt.mpr hk)]
  simp only [get_params, hbf]
  simp only [hres, get_limits, hlim, List.map_map]
  have hgd : ∀ (g : ℕ → Option ℝ) (i : ℕ), i < n →
      (((List.range n).map g).getD i none) = g i := fun g i hi => getD_map_range g none hi
  refine congrArg Except.ok (congrArg _ (congrArg₂ Prod.mk ?_ ?_))
  · refine List.map_congr_left (fun i hi => ?_)
    rw [List.mem_range] at hi
    rw [hgd _ i hi, hgd _ i hi]
    rfl
  · refine congrArg _ (fbWarnings_congr (fun i hi => ?_) (fun i hi => ?_)) <;>
      rw [hgd _ i hi] <;> rfl

/-- A stand-in for an Akima constructor whose every construction fails; used
to instantiate calls whose interpolator is never consulted. -/
def mkNone : Bool → List ℝ → List ℝ → Option (ℝ → Option ℝ) :=
  fun _ _ _ => none

/-- A stand-in for an Akima constructor that always succeeds and always
evaluates to the constant `0` (an interpolant whose whole domain is in
range). -/
def mkZero : Bool → List ℝ → List ℝ → Option (ℝ → Option ℝ) :=
  fun _ _ _ => some (fun _ => some 0)

/-- A stand-in for an Akima constructor that always succeeds with an
interpolant that is everywhere out of range (every evaluation is NaN). -/
def mkNaN : Bool → List ℝ → List ℝ → Option (ℝ → Option ℝ) :=
  fun _ _ _ => some (fun _ => none)

theorem specLimit_loAt {z M : ℝ} (hz0 : 0 ≤ z) (hz3 : z ≤ 3) :
    loAt specLimitInterp z M = some ((10 : ℝ) ^ (-8 : ℝ)) := by
  simp [loAt, specLimitInterp, limitBound, hz0, hz3]

theorem specLimit_hiAt {z M : ℝ} (hz0 : 0 ≤ z) (hz3 : z ≤ 3) :
    hiAt specLimitInterp z M = some ((10 : ℝ) ^ (2 : ℝ)) := by
  simp [hiAt, specLimitInterp, limitBound, hz0, hz3]

theorem specLimit_lo_le_one : (10 : ℝ) ^ (-8 : ℝ) ≤ 1 :=
  Real.rpow_le_one_of_one_le_of_nonpos (by norm_num) (by norm_num)

theorem specLimit_one_le_hi : (1 : ℝ) ≤ (10 : ℝ) ^ (2 : ℝ) := by
  rw [show (1 : ℝ) = (10 : ℝ) ^ (0 : ℝ) from (Real.rpow_zero 10).symm]
  exact (Real.rpow_le_rpow_left_iff (by norm_num)).mpr (by norm_num)

/-- C2: `sup_model` validates its inputs before any computation.  Clauses:
a redshift below `0` raises the InvalidInput error whatever the other
arguments; a redshift above `3` raises the OutOfCalibrationRange error; with
the redshift in range, `k_max > 12` raises the OutOfCalibrationRange error;
with `0 ≤ z ≤ 3` and `k_max ≤ 12` no range error is ever raised; and a
well-formed call (supported overdensity, both power-law parameters, nonzero
constant) in the soft bands `z < 0.125` or `8 < k_max ≤ 12` completes,
returns values, and carries the corresponding non-fatal warning. -/
theorem C2_validation (limTab : ℕ → Option LimitInterp)
    (mk : Bool → List ℝ → List ℝ → Option (ℝ → Option ℝ))
    (SO : ℕ) (z : ℝ) (fb_a fb_pow : Option ℝ) (piv : ℝ) (Mh fbt : Option (List ℝ))
    (ex : Bool) (k_min k_max : ℝ) (n : ℕ) (T : ParamTable) (L : LimitInterp) (a pw : ℝ) :
    (z < 0 →
      sup_model limTab mk SO z fb_a fb_pow piv Mh fbt ex k_min k_max n =
        .error .invalidInput) ∧
    (3 < z →
      sup_model limTab mk SO z fb_a fb_pow piv Mh fbt ex k_min k_max n =
        .error .outOfCalibrationRange) ∧
    (0 ≤ z → z ≤ 3 → 12 < k_max →
      sup_model limTab mk SO z fb_a fb_pow piv Mh fbt ex k_min k_max n =
        .error .outOfCalibrationRange) ∧
    (0 ≤ z → z ≤ 3 → k_max ≤ 12 →
      sup_model limTab mk SO z fb_a fb_pow piv Mh fbt ex k_min k_max n ≠
          .error .invalidInput ∧
      sup_model limTab mk SO z fb_a fb_pow piv Mh fbt ex k_min k_max n ≠
          .error .outOfCalibrationRange) ∧
    (0 ≤ z → z ≤ 3 → k_max ≤ 12 → best_fit_vals SO = some T → limTab SO = some L →
      fb_a = some a → fb_pow = some pw → a ≠ 0 →
      isOk (sup_model limTab mk SO z fb_a fb_pow piv Mh fbt ex k_min k_max n) = true ∧
      (z < 0.125 →
        SpkWarning.lowZ ∈ warnsOf (sup_model limTab mk SO z fb_a fb_pow piv Mh fbt ex k_min k_max n)) ∧
      (8 < k_max →
        SpkWarning.highKmax ∈ warnsOf (sup_model limTab mk SO z fb_a fb_pow piv Mh fbt ex k_min k_max n))) := by
  refine ⟨fun h => ?_, fun h => ?_, fun hz0 hz3 h => ?_, fun hz0 hz3 hk => ?_,
    fun hz0 hz3 hk hbf hlim hfa hfp ha => ?_⟩
  · unfold sup_model
    rw [if_pos h]
  · unfold sup_model
    rw [if_neg (by linarith), if_pos h]
  · unfold sup_model
    rw [if_neg (not_lt.mpr hz0), if_neg (not_lt.mpr hz3), if_pos h]
  · unfold sup_model
    rw [if_neg (not_lt.mpr hz0), if_neg (not_lt.mpr hz3), if_neg (not_lt.mpr hk)]
    rcases hgp : get_params SO z with e | p
    · obtain rfl := get_params_error hgp
      exact ⟨by simp, by simp⟩
    · dsimp only
      rcases hrf : resolveFb fb_a fb_pow piv Mh fbt mk ex
          (fun i => optimal_mass_funct (kAt k_min k_max n i) p) with e | fbF
      · obtain rfl := resolveFb_error hrf
        exact ⟨by simp, by simp⟩
      · rcases hgl : get_limits limTab SO z
            ((List.range n).map fun i => (10 : ℝ) ^ optimal_mass_funct (kAt k_min k_max n i) p) with e | pair
        · obtain rfl := get_limits_error hgl
          exact ⟨by simp, by simp⟩
        · rcases pair with ⟨los, his⟩
          exact ⟨by simp, by simp⟩
  · subst hfa hfp
    have htr : (truthyB (some a) || truthyB (some pw)) = true := by
      rw [truthyB_of_ne ha, Bool.true_or]
    rw [sup_model_ok hz0 hz3 hk hbf hlim (resolveFb_powerlaw htr)]
    refine ⟨rfl, fun hz => ?_, fun hk8 => ?_⟩
    · simp only [warnsOf, if_pos hz, List.mem_append, List.mem_singleton]
      tauto
    · simp only [warnsOf, if_pos hk8, List.mem_append, List.mem_singleton]
      tauto

/-- Witness for C2 at concrete calls: `z = -1`, `z = 4`, `k_max = 13`, a
fully valid default call, and a call in both soft-warning bands. -/
theorem C2_validation_witness :
    sup_model specLimits mkNone 200 (-1) none none 1 none none false 0.1 8 100 =
        .error .invalidInput ∧
    sup_model specLimits mkNone 200 4 none none 1 none none false 0.1 8 100 =
        .error .outOfCalibrationRange ∧
    sup_model specLimits mkNone 200 1 none none 1 none none false 0.1 13 100 =
        .error .outOfCalibrationRange ∧
    sup_model specLimits mkNone 200 1 none none 1 none none false 0.1 8 100 ≠
        .error .invalidInput ∧
    isOk (sup_model specLimits mkNone 200 0.1 (some 1) (some 0) 1 none none false 0.1 9 100) = true ∧
    SpkWarning.lowZ ∈ warnsOf (sup_model specLimits mkNone 200 0.1 (some 1) (some 0) 1 none none false 0.1 9 100) ∧
    SpkWarning.highKmax ∈ warnsOf (sup_model specLimits mkNone 200 0.1 (some 1) (some 0) 1 none none false 0.1 9 100) := by
  have h5 := (C2_validation specLimits mkNone 200 0.1 (some 1) (some 0) 1 none none false
    0.1 9 100 table200 specLimitInterp 1 0 ).2.2.2.2 (by norm_num) (by norm_num) (by norm_num)
    best_fit_vals_200 specLimits_200 rfl rfl (by norm_num)
  exact ⟨(C2_validation specLimits mkNone 200 (-1) none none 1 none none false 0.1 8 100
      table200 specLimitInterp 0 0).1 (by norm_num),
    (C2_validation specLimits mkNone 200 4 none none 1 none none false 0.1 8 100
      table200 specLimitInterp 0 0).2.1 (by norm_num),
    (C2_validation specLimits mkNone 200 1 none none 1 none none false 0.1 13 100
      table200 specLimitInterp 0 0).2.2.1 (by norm_num) (by norm_num) (by norm_num),
    ((C2_validation specLimits mkNone 200 1 none none 1 none none false 0.1 8 100
      table200 specLimitInterp 0 0).2.2.2.1 (by norm_num) (by norm_num) (by norm_num)).1,
    h5.1, h5.2.1 (by norm_num), h5.2.2 (by norm_num)⟩

/-- In power-law mode a missing (`None`) parameter raises the
MissingParameter error (the `TypeError` of the arithmetic is caught). -/
theorem resolveFb_powerlaw_missing {fb_a fb_pow : Option ℝ} {piv : ℝ}
    {Mh fbt : Option (List ℝ)} {mk : Bool → List ℝ → List ℝ → Option (ℝ → Option ℝ)}
    {ex : Bool} {bm : ℕ → ℝ}
    (htr : (truthyB fb_a || truthyB fb_pow) = true)
    (hmiss : fb_a = none ∨ fb_pow = none) :
    resolveFb fb_a fb_pow piv Mh fbt mk ex bm = .error .missingParameter := by
  simp only [resolveFb, htr, if_true]
  rcases fb_a with _ | a <;> rcases fb_pow with _ | pw <;> simp_all

/-- In tabulated mode a missing (`None`) array raises the MissingParameter
error (the `TypeError` of `np.log10(None)` is caught). -/
theorem resolveFb_falsy_missing {fb_a fb_pow : Option ℝ} {piv : ℝ}
    {Mh fbt : Option (List ℝ)} {mk : Bool → List ℝ → List ℝ → Option (ℝ → Option ℝ)}
    {ex : Bool} {bm : ℕ → ℝ}
    (hfa : truthyB fb_a = false) (hfp : truthyB fb_pow = false)
    (h : Mh = none ∨ fbt = none) :
    resolveFb fb_a fb_pow piv Mh fbt mk ex bm = .error .missingParameter := by
  simp only [resolveFb, hfa, hfp, Bool.or_self, Bool.false_eq_true, if_false]
  rcases Mh with _ | ms <;> rcases fbt with _ | fbs <;> simp_all

/-- A resolver error surfaces unchanged from `sup_model` once validation and
parameter lookup have passed. -/
theorem sup_model_resolve_error {limTab : ℕ → Option LimitInterp}
    {mk : Bool → List ℝ → List ℝ → Option (ℝ → Option ℝ)}
    {SO : ℕ} {z : ℝ} {fb_a fb_pow : Option ℝ} {piv : ℝ} {Mh fbt : Option (List ℝ)}
    {ex : Bool} {k_min k_max : ℝ} {n : ℕ} {T : ParamTable} {e : SpkError}
    (hz0 : 0 ≤ z) (hz3 : z ≤ 3) (hk : k_max ≤ 12)
    (hbf : best_fit_vals SO = some T)
    (hres : resolveFb fb_a fb_pow piv Mh fbt mk ex
      (fun i => optimal_mass_funct (kAt k_min k_max n i) (paramsFrom T z)) = .error e) :
    sup_model limTab mk SO z fb_a fb_pow piv Mh fbt ex k_min k_max n = .error e := by
  unfold sup_model
  rw [if_neg (not_lt.mpr hz0), if_neg (not_lt.mpr hz3), if_neg (not_lt.mpr hk)]
  simp only [get_params, hbf, hres]

/-- C6: `optimal_mass(SO, z, k)` with `max k ≤ 12` returns elementwise
`10 ^ (alpha - (alpha - beta) * k ^ gamma)` where each shape parameter is the
degree-2 polynomial `c2*(1+z)^2 + c1*(1+z) + c0` of its coefficient triple
for that overdensity (clause 4 checks all 11 parameters through
`_get_params`); `max k > 12` raises the OutOfCalibrationRange error;
`8 < max k ≤ 12` only appends a non-fatal warning, leaving the values
untouched; an unsupported overdensity raises the InvalidConfiguration
error. -/
theorem C6_optimal_mass (SO : ℕ) (z : ℝ) (k : List ℝ) (T : ParamTable) :
    (best_fit_vals SO = some T → listMax k ≤ 12 →
      optimal_mass SO z k =
        .ok (k.map (fun ki => (10 : ℝ) ^
            ((T.alpha.c2 * (1 + z) ^ 2 + T.alpha.c1 * (1 + z) + T.alpha.c0) -
             ((T.alpha.c2 * (1 + z) ^ 2 + T.alpha.c1 * (1 + z) + T.alpha.c0) -
              (T.beta.c2 * (1 + z) ^ 2 + T.beta.c1 * (1 + z) + T.beta.c0)) *
              ki ^ (T.gamma.c2 * (1 + z) ^ 2 + T.gamma.c1 * (1 + z) + T.gamma.c0))),
          if 8 < listMax k then [SpkWarning.highKmax] else [])) ∧
    (12 < listMax k → optimal_mass SO z k = .error .outOfCalibrationRange) ∧
    (SO ≠ 200 → SO ≠ 500 → listMax k ≤ 12 →
      optimal_mass SO z k = .error .invalidConfiguration) ∧
    (best_fit_vals SO = some T → get_params SO z = .ok
      { alpha := T.alpha.c2 * (1 + z) ^ 2 + T.alpha.c1 * (1 + z) + T.alpha.c0
        beta := T.beta.c2 * (1 + z) ^ 2 + T.beta.c1 * (1 + z) + T.beta.c0
        gamma := T.gamma.c2 * (1 + z) ^ 2 + T.gamma.c1 * (1 + z) + T.gamma.c0
        lambda_a := T.lambda_a.c2 * (1 + z) ^ 2 + T.lambda_a.c1 * (1 + z) + T.lambda_a.c0
        lambda_b := T.lambda_b.c2 * (1 + z) ^ 2 + T.lambda_b.c1 * (1 + z) + T.lambda_b.c0
        mu_a := T.mu_a.c2 * (1 + z) ^ 2 + T.mu_a.c1 * (1 + z) + T.mu_a.c0
        mu_b := T.mu_b.c2 * (1 + z) ^ 2 + T.mu_b.c1 * (1 + z) + T.mu_b.c0
        mu_c := T.mu_c.c2 * (1 + z) ^ 2 + T.mu_c.c1 * (1 + z) + T.mu_c.c0
        nu_a := T.nu_a.c2 * (1 + z) ^ 2 + T.nu_a.c1 * (1 + z) + T.nu_a.c0
        nu_b := T.nu_b.c2 * (1 + z) ^ 2 + T.nu_b.c1 * (1 + z) + T.nu_b.c0
        nu_c := T.nu_c.c2 * (1 + z) ^ 2 + T.nu_c.c1 * (1 + z) + T.nu_c.c0 }) := by
  refine ⟨fun hbf h12 => ?_, fun h12 => ?_, fun h1 h2 h12 => ?_, fun hbf => ?_⟩
  · simp only [optimal_mass, if_neg (not_lt.mpr h12), get_params, hbf,
      optimal_mass_funct, paramsFrom, poly_2]
  · simp only [optimal_mass, if_pos h12]
  · simp only [optimal_mass, if_neg (not_lt.mpr h12), get_params,
      best_fit_vals_eq_none h1 h2]
  · simp only [get_params, hbf, paramsFrom, poly_2]

/-- Witness for C6 at `SO = 200`, `z = 1`, `k = [1]`: the call returns the
closed-form optimal mass with no warning. -/
theorem C6_optimal_mass_witness :
    optimal_mass 200 1 [1] =
      .ok ([(1 : ℝ)].map (fun ki => (10 : ℝ) ^
          ((table200.alpha.c2 * (1 + 1) ^ 2 + table200.alpha.c1 * (1 + 1) + table200.alpha.c0) -
           ((table200.alpha.c2 * (1 + 1) ^ 2 + table200.alpha.c1 * (1 + 1) + table200.alpha.c0) -
            (table200.beta.c2 * (1 + 1) ^ 2 + table200.beta.c1 * (1 + 1) + table200.beta.c0)) *
            ki ^ (table200.gamma.c2 * (1 + 1) ^ 2 + table200.gamma.c1 * (1 + 1) + table200.gamma.c0))),
        []) := by
  have h := (C6_optimal_mass 200 1 [1] table200).1 best_fit_vals_200
    (by simp only [listMax, List.foldl_nil]; norm_num)
  rw [h, if_neg (by simp only [listMax, List.foldl_nil]; norm_num)]

/-- C8 (amended): for a supported overdensity, `get_limits` returns normally
with the lower and upper baryon-fraction bounds `10^(c0 + c1*log10(M) +
c2*log10(M)^2)` from the six redshift-interpolated coefficients, and NaN
coefficients (redshift outside the tabulated range) propagate to NaN bounds
rather than an exception; an unsupported overdensity, however, raises
(unguarded dictionary lookup). -/
theorem C8_get_limits (lt : ℕ → Option LimitInterp) (L : LimitInterp) (SO : ℕ)
    (z : ℝ) (ms : List ℝ) (c0 c1 c2 : ℝ) (M : ℝ) :
    (lt SO = some L →
      get_limits lt SO z ms = .ok (ms.map (loAt L z), ms.map (hiAt L z))) ∧
    (L.min_x0 z = some c0 → L.min_x1 z = some c1 → L.min_x2 z = some c2 →
      loAt L z M =
        some ((10 : ℝ) ^ (c0 + c1 * Real.logb 10 M + c2 * Real.logb 10 M ^ 2))) ∧
    (L.max_x0 z = some c0 → L.max_x1 z = some c1 → L.max_x2 z = some c2 →
      hiAt L z M =
        some ((10 : ℝ) ^ (c0 + c1 * Real.logb 10 M + c2 * Real.logb 10 M ^ 2))) ∧
    (L.min_x0 z = none ∨ L.min_x1 z = none ∨ L.min_x2 z = none → loAt L z M = none) ∧
    (L.max_x0 z = none ∨ L.max_x1 z = none ∨ L.max_x2 z = none → hiAt L z M = none) ∧
    (z < 0 ∨ 3 < z →
      get_limits specLimits 200 z ms =
        .ok (ms.map (fun _ => none), ms.map (fun _ => none))) := by
  refine ⟨fun hlt => ?_, fun h0 h1 h2 => ?_, fun h0 h1 h2 => ?_,
    fun h => ?_, fun h => ?_, fun hz => ?_⟩
  · simp only [get_limits, hlt]
  · simp only [loAt, h0, h1, h2, limitBound]
  · simp only [hiAt, h0, h1, h2, limitBound]
  · rcases h with h | h | h <;>
      simp only [loAt, h, limitBound] <;>
      rcases L.min_x0 z with _ | u <;> try rcases L.min_x1 z with _ | v <;> rfl
  · rcases h with h | h | h <;>
      simp only [hiAt, h, limitBound] <;>
      rcases L.max_x0 z with _ | u <;> try rcases L.max_x1 z with _ | v <;> rfl
  · have hnz : ¬(0 ≤ z ∧ z ≤ 3) := by
      rcases hz with h | h
      · exact fun hc => absurd hc.1 (not_le.mpr h)
      · exact fun hc => absurd hc.2 (not_le.mpr h)
    simp only [get_limits, specLimits_200]
    refine congrArg Except.ok (congrArg₂ Prod.mk ?_ ?_) <;>
      refine List.map_congr_left (fun M hM => ?_) <;>
      simp [loAt, hiAt, specLimitInterp, limitBound, hnz]

/-- Witness for C8: concrete bound computations through the spec-modelled
limit table at `z = 1` (in coverage) and `z = 5` (outside coverage). -/
theorem C8_get_limits_witness :
    get_limits specLimits 200 1 [10] =
      .ok ([(10 : ℝ)].map (loAt specLimitInterp 1), [(10 : ℝ)].map (hiAt specLimitInterp 1)) ∧
    loAt specLimitInterp 1 10 =
      some ((10 : ℝ) ^ ((-8) + 0 * Real.logb 10 10 + 0 * Real.logb 10 10 ^ 2)) ∧
    get_limits specLimits 200 5 [10] =
      .ok ([(10 : ℝ)].map (fun _ => none), [(10 : ℝ)].map (fun _ => none)) := by
  have h := C8_get_limits specLimits specLimitInterp 200 1 [10] (-8) 0 0 10
  have h5 := C8_get_limits specLimits specLimitInterp 200 5 [10] 0 0 0 10
  refine ⟨h.1 specLimits_200, ?_, h5.2.2.2.2.2 (by norm_num)⟩
  exact h.2.1 (by norm_num [specLimitInterp]) (by norm_num [specLimitInterp])
    (by norm_num [specLimitInterp])

/-- Counterexample for C8: as stated the claim quantifies over every
overdensity and asserts `get_limits` never raises, but the unguarded lookup
of an unsupported overdensity (here 300) raises. -/
theorem C8_get_limits_counterexample :
    get_limits specLimits 300 1 [(10 : ℝ) ^ (13 : ℝ)] = .error .invalidConfiguration := by
  unfold get_limits
  rw [specLimits_eq_none (by norm_num) (by norm_num)]

/-- C5 (amended): power-law mode is activated when either `fb_a` or `fb_pow`
is supplied with a nonzero value (Python truthiness of `if fb_a or fb_pow:`,
so a supplied zero does not activate it); in that mode a `None` for the other
parameter raises the MissingParameter error while two supplied values always
proceed past parameter resolution; and a call supplying neither power-law nor
tabulated arguments raises the MissingParameter error. -/
theorem C5_missing_parameter (limTab : ℕ → Option LimitInterp)
    (mk : Bool → List ℝ → List ℝ → Option (ℝ → Option ℝ))
    (SO : ℕ) (z : ℝ) (fb_a fb_pow : Option ℝ) (piv : ℝ) (Mh fbt : Option (List ℝ))
    (ex : Bool) (k_min k_max : ℝ) (n : ℕ) (T : ParamTable) (L : LimitInterp) (a pw : ℝ) :
    (0 ≤ z → z ≤ 3 → k_max ≤ 12 → best_fit_vals SO = some T →
      (truthyB fb_a || truthyB fb_pow) = true → (fb_a = none ∨ fb_pow = none) →
      sup_model limTab mk SO z fb_a fb_pow piv Mh fbt ex k_min k_max n =
        .error .missingParameter) ∧
    (0 ≤ z → z ≤ 3 → k_max ≤ 12 → best_fit_vals SO = some T → limTab SO = some L →
      (truthyB (some a) || truthyB (some pw)) = true →
      isOk (sup_model limTab mk SO z (some a) (some pw) piv Mh fbt ex k_min k_max n) = true) ∧
    (0 ≤ z → z ≤ 3 → k_max ≤ 12 → best_fit_vals SO = some T →
      sup_model limTab mk SO z none none piv none none ex k_min k_max n =
        .error .missingParameter) := by
  refine ⟨fun hz0 hz3 hk hbf htr hmiss => ?_, fun hz0 hz3 hk hbf hlim htr => ?_,
    fun hz0 hz3 hk hbf => ?_⟩
  · exact sup_model_resolve_error hz0 hz3 hk hbf (resolveFb_powerlaw_missing htr hmiss)
  · rw [sup_model_ok hz0 hz3 hk hbf hlim (resolveFb_powerlaw htr)]
    rfl
  · exact sup_model_resolve_error hz0 hz3 hk hbf
      (resolveFb_falsy_missing rfl rfl (Or.inl rfl))

/-- Witness for C5: a power-law call missing `fb_pow` and a call with no
baryon-fraction arguments at all both raise the MissingParameter error, and
a complete power-law call returns normally. -/
theorem C5_missing_parameter_witness :
    sup_model specLimits mkNone 200 1 (some 1) none 1 none none false 0.1 8 100 =
        .error .missingParameter ∧
    isOk (sup_model specLimits mkNone 200 1 (some 1) (some 0) 1 none none false 0.1 8 100) = true ∧
    sup_model specLimits mkNone 200 1 none none 1 none none false 0.1 8 100 =
        .error .missingParameter := by
  have h1 := (C5_missing_parameter specLimits mkNone 200 1 (some 1) none 1 none none false
    0.1 8 100 table200 specLimitInterp 1 0).1 (by norm_num) (by norm_num) (by norm_num)
    best_fit_vals_200 (by rw [truthyB_of_ne (by norm_num), Bool.true_or]) (Or.inr rfl)
  have h2 := (C5_missing_parameter specLimits mkNone 200 1 (some 1) (some 0) 1 none none false
    0.1 8 100 table200 specLimitInterp 1 0).2.1 (by norm_num) (by norm_num) (by norm_num)
    best_fit_vals_200 specLimits_200 (by rw [truthyB_of_ne (by norm_num), Bool.true_or])
  have h3 := (C5_missing_parameter specLimits mkNone 200 1 none none 1 none none false
    0.1 8 100 table200 specLimitInterp 1 0).2.2 (by norm_num) (by norm_num) (by norm_num)
    best_fit_vals_200
  exact ⟨h1, h2, h3⟩

/-- Counterexample for C5: `fb_a = 0` and `fb_pow = 0` are both supplied, so
under the claim power-law mode is active with its full argument set and no
MissingParameter error may be raised; but `0` is falsy in Python, the call
falls through to tabulated mode, and with no tabulated arrays it raises the
MissingParameter error. -/
theorem C5_missing_parameter_counterexample :
    sup_model specLimits mkNone 200 (1 / 2) (some 0) (some 0) 1 none none false 0.1 8 100 =
      .error .missingParameter := by
  refine sup_model_resolve_error (by norm_num) (by norm_num) (by norm_num)
    best_fit_vals_200 (resolveFb_falsy_missing ?_ ?_ (Or.inl rfl)) <;>
    exact truthyB_some_eq_false.mpr rfl

/-- C9 (amended): whenever at least one power-law parameter is supplied and
nonzero, power-law mode takes precedence: the result is identical to the
same call with the tabulated arrays omitted (and with any interpolator
constructor and extrapolation flag), so the tabulated inputs are never
consulted. -/
theorem C9_powerlaw_precedence (limTab : ℕ → Option LimitInterp)
    (mk mk' : Bool → List ℝ → List ℝ → Option (ℝ → Option ℝ))
    (SO : ℕ) (z : ℝ) (fb_a fb_pow : Option ℝ) (piv : ℝ) (Mh fbt : Option (List ℝ))
    (ex ex' : Bool) (k_min k_max : ℝ) (n : ℕ)
    (htr : (truthyB fb_a || truthyB fb_pow) = true) :
    sup_model limTab mk SO z fb_a fb_pow piv Mh fbt ex k_min k_max n =
      sup_model limTab mk' SO z fb_a fb_pow piv none none ex' k_min k_max n := by
  unfold sup_model
  refine if_congr Iff.rfl rfl (if_congr Iff.rfl rfl (if_congr Iff.rfl rfl ?_))
  rcases hgp : get_params SO z with e | p
  · rfl
  · dsimp only
    have hirr : resolveFb fb_a fb_pow piv Mh fbt mk ex
        (fun i => optimal_mass_funct (kAt k_min k_max n i) p) =
        resolveFb fb_a fb_pow piv none none mk' ex'
          (fun i => optimal_mass_funct (kAt k_min k_max n i) p) :=
      resolveFb_truthy_irrel htr
    rw [hirr]

/-- Witness for C9: with `fb_a = 1` supplied, a call carrying tabulated
arrays returns exactly what the call without them returns. -/
theorem C9_powerlaw_precedence_witness :
    sup_model specLimits mkZero 200 1 (some 1) (some 0) 1 (some [1, 2]) (some [1, 2]) false 0.1 8 100 =
      sup_model specLimits mkNone 200 1 (some 1) (some 0) 1 none none false 0.1 8 100 :=
  C9_powerlaw_precedence specLimits mkZero mkNone 200 1 (some 1) (some 0) 1
    (some [1, 2]) (some [1, 2]) false false 0.1 8 100
    (by rw [truthyB_of_ne (by norm_num), Bool.true_or])

/-- Counterexample for C9: with `fb_a = 0` and `fb_pow = 0` both supplied
alongside a well-formed tabulated relation — five strictly increasing halo
masses with five baryon fractions, arrays on which the Akima constructor
succeeds (`mkZero` stands for that successful construction; scipy rejects
only too-short or non-monotonic inputs) — Python truthiness sends the call
to tabulated mode: the tabulated arrays are consulted, the call returns
normally, and the result differs from the call with the arrays omitted,
which raises the MissingParameter error. -/
theorem C9_powerlaw_precedence_counterexample :
    sup_model specLimits mkZero 200 (1 / 2) (some 0) (some 0) 1
        (some [1e12, 1e13, 1e14, 1e15, 1e16]) (some [0.1, 0.2, 0.3, 0.4, 0.5])
        false 0.1 8 2 ≠
      sup_model specLimits mkZero 200 (1 / 2) (some 0) (some 0) 1 none none false 0.1 8 2 := by
  have hfalsy : truthyB (some (0 : ℝ)) = false := truthyB_some_eq_false.mpr rfl
  have hL : isOk (sup_model specLimits mkZero 200 (1 / 2) (some 0) (some 0) 1
      (some [1e12, 1e13, 1e14, 1e15, 1e16]) (some [0.1, 0.2, 0.3, 0.4, 0.5])
      false 0.1 8 2) = true := by
    rw [sup_model_ok (by norm_num) (by norm_num) (by norm_num) best_fit_vals_200
      specLimits_200 (resolveFb_tabulated hfalsy hfalsy rfl)]
    rfl
  have hR : sup_model specLimits mkZero 200 (1 / 2) (some 0) (some 0) 1
      none none false 0.1 8 2 = .error .missingParameter :=
    sup_model_resolve_error (by norm_num) (by norm_num) (by norm_num) best_fit_vals_200
      (resolveFb_falsy_missing hfalsy hfalsy (Or.inl rfl))
  intro h
  rw [h, hR] at hL
  exact absurd hL (by simp [isOk])

/-- C1: for a valid `sup_model` call (supported overdensity, redshift and
`k_max` in range, baryon-fraction arguments resolving successfully in either
mode), the returned suppression at each grid index whose baryon fraction `f`
lies inside the fitting limits `[lo, hi]` equals
`lambda(x) - (lambda(x) - mu(x)) * exp(-nu(x) * f)` at `x = log10 k_i`, with
`lambda(x) = 1 + lambda_a*exp(lambda_b*x)`,
`mu(x) = mu_a + (1-mu_a)/(1+exp(mu_b*x+mu_c))`,
`nu(x) = nu_a*exp(-0.5*((x-nu_b)/nu_c)^2)` evaluated on the shape parameters
of that `(SO, z)`. -/
theorem C1_sup_formula (limTab : ℕ → Option LimitInterp)
    (mk : Bool → List ℝ → List ℝ → Option (ℝ → Option ℝ))
    (SO : ℕ) (z : ℝ) (fb_a fb_pow : Option ℝ) (piv : ℝ) (Mh fbt : Option (List ℝ))
    (ex : Bool) (k_min k_max : ℝ) (n i : ℕ) (T : ParamTable) (L : LimitInterp)
    (fbF : ℕ → Option ℝ) (P : Params) (x f lo hi : ℝ)
    (hz0 : 0 ≤ z) (hz3 : z ≤ 3) (hk : k_max ≤ 12)
    (hbf : best_fit_vals SO = some T) (hlim : limTab SO = some L)
    (hres : resolveFb fb_a fb_pow piv Mh fbt mk ex
      (fun j => optimal_mass_funct (kAt k_min k_max n j) (paramsFrom T z)) = .ok fbF)
    (hin : i < n)
    (hP : P = paramsFrom T z)
    (hx : x = Real.logb 10 (kAt k_min k_max n i))
    (hf : fbF i = some f)
    (hlo : loAt L z ((10 : ℝ) ^ optimal_mass_funct (kAt k_min k_max n i) (paramsFrom T z)) = some lo)
    (hhi : hiAt L z ((10 : ℝ) ^ optimal_mass_funct (kAt k_min k_max n i) (paramsFrom T z)) = some hi)
    (hbounds : lo ≤ f ∧ f ≤ hi) :
    (supOf (sup_model limTab mk SO z fb_a fb_pow piv Mh fbt ex k_min k_max n))[i]? =
      some (some (
        (1 + P.lambda_a * Real.exp (P.lambda_b * x)) -
        ((1 + P.lambda_a * Real.exp (P.lambda_b * x)) -
         (P.mu_a + (1 - P.mu_a) / (1 + Real.exp (P.mu_b * x + P.mu_c)))) *
        Real.exp (-(P.nu_a * Real.exp (-(1 / 2) * ((x - P.nu_b) / P.nu_c) ^ 2)) * f))) := by
  subst hP hx
  rw [sup_model_ok hz0 hz3 hk hbf hlim hres]
  simp only [supOf]
  rw [getElem?_map_range _ hin, supEntry, hf, hlo, hhi, outMinB_some_some,
    outMaxB_some_some, decide_eq_false (not_lt.mpr hbounds.1),
    decide_eq_false (not_lt.mpr hbounds.2)]
  simp [lambda_funct, mu_funct, nu_func]

/-- Witness for C1 at `SO = 200`, `z = 1`, power law `fb_a = 1, fb_pow = 0`
(baryon fraction identically `1`, inside the modelled limits), `n = 1`,
index `0`. -/
theorem C1_sup_formula_witness :
    (supOf (sup_model specLimits mkNone 200 1 (some 1) (some 0) 1 none none false 0.1 8 1))[0]? =
      some (some (
        (1 + (paramsFrom table200 1).lambda_a *
          Real.exp ((paramsFrom table200 1).lambda_b * Real.logb 10 (kAt 0.1 8 1 0))) -
        ((1 + (paramsFrom table200 1).lambda_a *
          Real.exp ((paramsFrom table200 1).lambda_b * Real.logb 10 (kAt 0.1 8 1 0))) -
         ((paramsFrom table200 1).mu_a + (1 - (paramsFrom table200 1).mu_a) /
           (1 + Real.exp ((paramsFrom table200 1).mu_b * Real.logb 10 (kAt 0.1 8 1 0) +
             (paramsFrom table200 1).mu_c)))) *
        Real.exp (-((paramsFrom table200 1).nu_a *
          Real.exp (-(1 / 2) * ((Real.logb 10 (kAt 0.1 8 1 0) - (paramsFrom table200 1).nu_b) /
            (paramsFrom table200 1).nu_c) ^ 2)) *
          power_law ((10 : ℝ) ^ optimal_mass_funct (kAt 0.1 8 1 0) (paramsFrom table200 1)) 1 0 1))) := by
  have hfval : power_law ((10 : ℝ) ^ optimal_mass_funct (kAt 0.1 8 1 0) (paramsFrom table200 1)) 1 0 1 = 1 := by
    simp [power_law, Real.rpow_zero]
  refine C1_sup_formula specLimits mkNone 200 1 (some 1) (some 0) 1 none none false 0.1 8 1 0
    table200 specLimitInterp _ _ _
    (power_law ((10 : ℝ) ^ optimal_mass_funct (kAt 0.1 8 1 0) (paramsFrom table200 1)) 1 0 1)
    ((10 : ℝ) ^ (-8 : ℝ)) ((10 : ℝ) ^ (2 : ℝ))
    (by norm_num) (by norm_num) (by norm_num) best_fit_vals_200 specLimits_200
    (resolveFb_powerlaw (by rw [truthyB_of_ne (by norm_num), Bool.true_or]))
    (by norm_num) rfl rfl rfl
    (specLimit_loAt (by norm_num) (by norm_num))
    (specLimit_hiAt (by norm_num) (by norm_num))
    ⟨by rw [hfval]; exact specLimit_lo_le_one, by rw [hfval]; exact specLimit_one_le_hi⟩

theorem mem_warns_below {z k_max : ℝ} {n : ℕ} {fbF loF hiF : ℕ → Option ℝ} :
    SpkWarning.fbBelowMin ∈ ((if z < 0.125 then [SpkWarning.lowZ] else []) ++
      (if 8 < k_max then [SpkWarning.highKmax] else []) ++ fbWarnings n fbF loF hiF) ↔
    ((List.range n).any fun i => outMinB (fbF i) (loF i)) = true := by
  by_cases h1 : z < 0.125 <;> by_cases h2 : 8 < k_max <;>
    by_cases h3 : ((List.range n).any fun i => outMinB (fbF i) (loF i)) = true <;>
    by_cases h4 : ((List.range n).any fun i => outMaxB (fbF i) (hiF i)) = true <;>
    simp [fbWarnings, h1, h2, h3, h4]

theorem mem_warns_above {z k_max : ℝ} {n : ℕ} {fbF loF hiF : ℕ → Option ℝ} :
    SpkWarning.fbAboveMax ∈ ((if z < 0.125 then [SpkWarning.lowZ] else []) ++
      (if 8 < k_max then [SpkWarning.highKmax] else []) ++ fbWarnings n fbF loF hiF) ↔
    ((List.range n).any fun i => outMaxB (fbF i) (hiF i)) = true := by
  by_cases h1 : z < 0.125 <;> by_cases h2 : 8 < k_max <;>
    by_cases h3 : ((List.range n).any fun i => outMinB (fbF i) (loF i)) = true <;>
    by_cases h4 : ((List.range n).any fun i => outMaxB (fbF i) (hiF i)) = true <;>
    simp [fbWarnings, h1, h2, h3, h4]

/-- A suppression entry with a non-NaN baryon fraction is NaN exactly when
one of the two mask comparisons fires. -/
theorem supEntry_eq_none_iff {p : Params} {x : ℝ} {f₀ lo hi : Option ℝ} {f : ℝ}
    (hf : f₀ = some f) :
    supEntry p x f₀ lo hi = none ↔
      (outMinB f₀ lo = true ∨ outMaxB f₀ hi = true) := by
  subst hf
  rcases hb1 : outMinB (some f) lo with _ | _ <;>
    rcases hb2 : outMaxB (some f) hi with _ | _ <;>
    simp [supEntry, hb1, hb2]

/-- C4: for a valid resolved call, the suppression array always has the same
length as the wavenumber grid; where the resolved baryon fraction `f` and the
fit-limit bounds `[lo, hi]` are actual numbers, the entry at index `i` is NaN
exactly when `f` falls outside `[lo, hi]` and is an actual (finite) value
otherwise; and when every baryon fraction and bound is a number, an
out-of-limits warning is emitted precisely when at least one entry is
masked. -/
theorem C4_masking (limTab : ℕ → Option LimitInterp)
    (mk : Bool → List ℝ → List ℝ → Option (ℝ → Option ℝ))
    (SO : ℕ) (z : ℝ) (fb_a fb_pow : Option ℝ) (piv : ℝ) (Mh fbt : Option (List ℝ))
    (ex : Bool) (k_min k_max : ℝ) (n : ℕ) (T : ParamTable) (L : LimitInterp)
    (fbF : ℕ → Option ℝ)
    (hz0 : 0 ≤ z) (hz3 : z ≤ 3) (hk : k_max ≤ 12)
    (hbf : best_fit_vals SO = some T) (hlim : limTab SO = some L)
    (hres : resolveFb fb_a fb_pow piv Mh fbt mk ex
      (fun j => optimal_mass_funct (kAt k_min k_max n j) (paramsFrom T z)) = .ok fbF) :
    ((supOf (sup_model limTab mk SO z fb_a fb_pow piv Mh fbt ex k_min k_max n)).length =
      (kOf (sup_model limTab mk SO z fb_a fb_pow piv Mh fbt ex k_min k_max n)).length) ∧
    (∀ i, i < n → ∀ f lo hi : ℝ, fbF i = some f →
      loAt L z ((10 : ℝ) ^ optimal_mass_funct (kAt k_min k_max n i) (paramsFrom T z)) = some lo →
      hiAt L z ((10 : ℝ) ^ optimal_mass_funct (kAt k_min k_max n i) (paramsFrom T z)) = some hi →
      ((supOf (sup_model limTab mk SO z fb_a fb_pow piv Mh fbt ex k_min k_max n))[i]? = some none ↔
        (f < lo ∨ hi < f))) ∧
    ((∀ i, i < n → fbF i ≠ none) →
     (∀ i, i < n →
       loAt L z ((10 : ℝ) ^ optimal_mass_funct (kAt k_min k_max n i) (paramsFrom T z)) ≠ none) →
     (∀ i, i < n →
       hiAt L z ((10 : ℝ) ^ optimal_mass_funct (kAt k_min k_max n i) (paramsFrom T z)) ≠ none) →
      ((SpkWarning.fbBelowMin ∈ warnsOf (sup_model limTab mk SO z fb_a fb_pow piv Mh fbt ex k_min k_max n) ∨
        SpkWarning.fbAboveMax ∈ warnsOf (sup_model limTab mk SO z fb_a fb_pow piv Mh fbt ex k_min k_max n)) ↔
        ∃ i, i < n ∧
          (supOf (sup_model limTab mk SO z fb_a fb_pow piv Mh fbt ex k_min k_max n))[i]? = some none)) := by
  rw [sup_model_ok hz0 hz3 hk hbf hlim hres]
  refine ⟨?_, fun i hi f lo hi' hf hlo hhi => ?_, fun hfb hloT hhiT => ?_⟩
  · simp [supOf, kOf, kGrid]
  · rw [supOf, getElem?_map_range _ hi, supEntry, hf, hlo, hhi, outMinB_some_some,
      outMaxB_some_some]
    by_cases h1 : f < lo
    · simp [h1]
    · by_cases h2 : hi' < f
      · simp [h1, h2]
      · simp [h1, h2]
  · have key : ∀ i, i < n →
        (supEntry (paramsFrom T z) (Real.logb 10 (kAt k_min k_max n i)) (fbF i)
          (loAt L z ((10 : ℝ) ^ optimal_mass_funct (kAt k_min k_max n i) (paramsFrom T z)))
          (hiAt L z ((10 : ℝ) ^ optimal_mass_funct (kAt k_min k_max n i) (paramsFrom T z))) = none ↔
        (outMinB (fbF i)
            (loAt L z ((10 : ℝ) ^ optimal_mass_funct (kAt k_min k_max n i) (paramsFrom T z))) = true ∨
         outMaxB (fbF i)
            (hiAt L z ((10 : ℝ) ^ optimal_mass_funct (kAt k_min k_max n i) (paramsFrom T z))) = true)) := by
      intro i hi
      obtain ⟨f, hf⟩ := Option.ne_none_iff_exists'.mp (hfb i hi)
      exact supEntry_eq_none_iff hf
    rw [warnsOf, mem_warns_below, mem_warns_above]
    constructor
    · rintro (h | h) <;> obtain ⟨i, hmem, hout⟩ := List.any_eq_true.mp h <;>
        rw [List.mem_range] at hmem <;>
        refine ⟨i, hmem, ?_⟩ <;>
        rw [supOf, getElem?_map_range _ hmem] <;>
        exact congrArg some ((key i hmem).mpr (by tauto))
    · rintro ⟨i, hi, hent⟩
      rw [supOf, getElem?_map_range _ hi] at hent
      rcases (key i hi).mp (Option.some_inj.mp hent) with h | h
      · exact Or.inl (List.any_eq_true.mpr ⟨i, List.mem_range.mpr hi, h⟩)
      · exact Or.inr (List.any_eq_true.mpr ⟨i, List.mem_range.mpr hi, h⟩)

/-- Witness for C4 at the C1 witness call (baryon fraction `1`, inside the
modelled limits): equal lengths and the in-limits entry is not NaN. -/
theorem C4_masking_witness :
    ((supOf (sup_model specLimits mkNone 200 1 (some 1) (some 0) 1 none none false 0.1 8 1)).length =
      (kOf (sup_model specLimits mkNone 200 1 (some 1) (some 0) 1 none none false 0.1 8 1)).length) ∧
    ((supOf (sup_model specLimits mkNone 200 1 (some 1) (some 0) 1 none none false 0.1 8 1))[0]? = some none ↔
      (power_law ((10 : ℝ) ^ optimal_mass_funct (kAt 0.1 8 1 0) (paramsFrom table200 1)) 1 0 1 <
          (10 : ℝ) ^ (-8 : ℝ) ∨
        (10 : ℝ) ^ (2 : ℝ) <
          power_law ((10 : ℝ) ^ optimal_mass_funct (kAt 0.1 8 1 0) (paramsFrom table200 1)) 1 0 1)) := by
  have h := C4_masking specLimits mkNone 200 1 (some 1) (some 0) 1 none none false 0.1 8 1
    table200 specLimitInterp _ (by norm_num) (by norm_num) (by norm_num)
    best_fit_vals_200 specLimits_200
    (resolveFb_powerlaw (by rw [truthyB_of_ne (by norm_num), Bool.true_or]))
  exact ⟨h.1, h.2.1 0 (by norm_num) _ _ _ rfl
    (specLimit_loAt (by norm_num) (by norm_num))
    (specLimit_hiAt (by norm_num) (by norm_num))⟩

/-- With `fb_a = 0` and a nonzero `fb_pow`, power-law mode resolves the
baryon fraction to `0` at every index. -/
theorem resolveFb_fb_zero {pw piv : ℝ} {Mh fbt : Option (List ℝ)}
    {mk : Bool → List ℝ → List ℝ → Option (ℝ → Option ℝ)} {ex : Bool} {bm : ℕ → ℝ}
    (hpw : pw ≠ 0) :
    resolveFb (some 0) (some pw) piv Mh fbt mk ex bm = .ok (fun _ => some 0) := by
  rw [resolveFb_powerlaw (by rw [truthyB_of_ne hpw, Bool.or_true])]
  exact congrArg Except.ok (funext fun i => by simp [power_law])

/-- With `fb_a = 0`, nonzero `fb_pow`, and lower-limit coefficients defined
at `z`, every returned suppression entry is NaN: the zero baryon fraction
falls strictly below the positive lower fitting limit `10 ^ (...)`, so the
mask fires everywhere. -/
theorem fb_zero_entry_none {limTab : ℕ → Option LimitInterp}
    {mk : Bool → List ℝ → List ℝ → Option (ℝ → Option ℝ)}
    {SO : ℕ} {z pw piv : ℝ} {Mh fbt : Option (List ℝ)} {ex : Bool}
    {k_min k_max : ℝ} {n i : ℕ} {T : ParamTable} {L : LimitInterp} {c0 c1 c2 : ℝ}
    (hz0 : 0 ≤ z) (hz3 : z ≤ 3) (hk : k_max ≤ 12)
    (hbf : best_fit_vals SO = some T) (hlim : limTab SO = some L)
    (hpw : pw ≠ 0)
    (hmin0 : L.min_x0 z = some c0) (hmin1 : L.min_x1 z = some c1)
    (hmin2 : L.min_x2 z = some c2) (hi : i < n) :
    (supOf (sup_model limTab mk SO z (some 0) (some pw) piv Mh fbt ex k_min k_max n))[i]? =
      some none := by
  rw [sup_model_ok hz0 hz3 hk hbf hlim (resolveFb_fb_zero hpw)]
  rw [supOf, getElem?_map_range _ hi]
  refine congrArg some ?_
  rw [supEntry]
  have hlo : loAt L z ((10 : ℝ) ^ optimal_mass_funct (kAt k_min k_max n i) (paramsFrom T z)) =
      some ((10 : ℝ) ^ (c0 + c1 * Real.logb 10 ((10 : ℝ) ^ optimal_mass_funct (kAt k_min k_max n i) (paramsFrom T z)) +
        c2 * Real.logb 10 ((10 : ℝ) ^ optimal_mass_funct (kAt k_min k_max n i) (paramsFrom T z)) ^ 2)) := by
    simp only [loAt, hmin0, hmin1, hmin2, limitBound]
  rw [hlo, outMinB_some_some,
    decide_eq_true (Real.rpow_pos_of_pos (by norm_num : (0 : ℝ) < 10) _), Bool.true_or]
  rfl

/-- C7 (amended): in power-law mode with `fb_a = 0` (activated by a nonzero
`fb_pow`), the resolved baryon fraction is `0` at every wavenumber, and the
unmasked assembly `lambda - (lambda - mu) * exp(-nu * 0)` does collapse to
`mu`; but wherever the lower-limit coefficients are defined the positive
lower fitting limit exceeds `0`, so every entry of the suppression array
actually returned by `sup_model` is masked to NaN — the returned array is
all-NaN, not `mu`. -/
theorem C7_fb_zero (limTab : ℕ → Option LimitInterp)
    (mk : Bool → List ℝ → List ℝ → Option (ℝ → Option ℝ))
    (SO : ℕ) (z pw piv : ℝ) (Mh fbt : Option (List ℝ)) (ex : Bool)
    (k_min k_max : ℝ) (n : ℕ) (T : ParamTable) (L : LimitInterp) (c0 c1 c2 : ℝ)
    (hz0 : 0 ≤ z) (hz3 : z ≤ 3) (hk : k_max ≤ 12)
    (hbf : best_fit_vals SO = some T) (hlim : limTab SO = some L)
    (hpw : pw ≠ 0)
    (hmin0 : L.min_x0 z = some c0) (hmin1 : L.min_x1 z = some c1)
    (hmin2 : L.min_x2 z = some c2) :
    (resolveFb (some 0) (some pw) piv Mh fbt mk ex
      (fun j => optimal_mass_funct (kAt k_min k_max n j) (paramsFrom T z)) =
      .ok (fun _ => some 0)) ∧
    (∀ i, i < n →
      (supOf (sup_model limTab mk SO z (some 0) (some pw) piv Mh fbt ex k_min k_max n))[i]? =
        some none) ∧
    (∀ x : ℝ, ∀ P : Params,
      lambda_funct x P - (lambda_funct x P - mu_funct x P) * Real.exp (-nu_func x P * 0) =
        mu_funct x P) := by
  refine ⟨resolveFb_fb_zero hpw, fun i hi =>
    fb_zero_entry_none hz0 hz3 hk hbf hlim hpw hmin0 hmin1 hmin2 hi, fun x P => ?_⟩
  rw [mul_zero, Real.exp_zero]
  ring

/-- Witness for C7 at `SO = 200`, `z = 1`, `fb_a = 0`, `fb_pow = 1`. -/
theorem C7_fb_zero_witness :
    (resolveFb (some 0) (some 1) 1 none none mkNone false
      (fun j => optimal_mass_funct (kAt 0.1 8 100 j) (paramsFrom table200 1)) =
      .ok (fun _ => some 0)) ∧
    (supOf (sup_model specLimits mkNone 200 1 (some 0) (some 1) 1 none none false 0.1 8 100))[0]? =
      some none ∧
    lambda_funct 0 (paramsFrom table200 1) -
      (lambda_funct 0 (paramsFrom table200 1) - mu_funct 0 (paramsFrom table200 1)) *
        Real.exp (-nu_func 0 (paramsFrom table200 1) * 0) =
      mu_funct 0 (paramsFrom table200 1) := by
  have h := C7_fb_zero specLimits mkNone 200 1 1 1 none none false 0.1 8 100
    table200 specLimitInterp (-8) 0 0 (by norm_num) (by norm_num) (by norm_num)
    best_fit_vals_200 specLimits_200 (by norm_num)
    (by norm_num [specLimitInterp]) (by norm_num [specLimitInterp])
    (by norm_num [specLimitInterp])
  exact ⟨h.1, h.2.1 0 (by norm_num), h.2.2 0 (paramsFrom table200 1)⟩

/-- Counterexample for C7: at `SO = 200`, `z = 1`, `fb_a = 0`, `fb_pow = 1`
the suppression array returned by `sup_model` does not equal `mu(log10 k)`
elementwise — its first entry is NaN (`0` is below the lower fitting limit
and is masked), not the finite `mu` value. -/
theorem C7_fb_zero_counterexample :
    (supOf (sup_model specLimits mkNone 200 1 (some 0) (some 1) 1 none none false 0.1 8 100))[0]? ≠
      some (some (mu_funct (Real.logb 10 (kAt 0.1 8 100 0)) (paramsFrom table200 1))) := by
  have h0 : (supOf (sup_model specLimits mkNone 200 1 (some 0) (some 1) 1 none none false 0.1 8 100))[0]? =
      some none :=
    fb_zero_entry_none (by norm_num) (by norm_num) (by norm_num)
      best_fit_vals_200 specLimits_200 (by norm_num)
      (show specLimitInterp.min_x0 1 = some (-8) by norm_num [specLimitInterp])
      (show specLimitInterp.min_x1 1 = some 0 by norm_num [specLimitInterp])
      (show specLimitInterp.min_x2 1 = some 0 by norm_num [specLimitInterp])
      (by norm_num)
  intro h
  rw [h0] at h
  simp at h

/-- C10: in tabulated mode, when the (external) interpolant returns NaN at
the optimal mass of some wavenumbers — out-of-range points with
extrapolation disabled — `sup_model` still returns normally; at those
indices the suppression entry is NaN by arithmetic propagation, yet neither
mask comparison fires there (NaN compares false against both bounds), and if
every point is NaN no out-of-limits warning is emitted at all. -/
theorem C10_nan_interpolation (limTab : ℕ → Option LimitInterp)
    (mk : Bool → List ℝ → List ℝ → Option (ℝ → Option ℝ))
    (SO : ℕ) (z piv : ℝ) (ms fbs : List ℝ) (ex : Bool)
    (k_min k_max : ℝ) (n : ℕ) (T : ParamTable) (L : LimitInterp) (itp : ℝ → Option ℝ)
    (hz0 : 0 ≤ z) (hz3 : z ≤ 3) (hk : k_max ≤ 12)
    (hbf : best_fit_vals SO = some T) (hlim : limTab SO = some L)
    (hmk : mk ex (ms.map (Real.logb 10)) (fbs.map (Real.logb 10)) = some itp) :
    (isOk (sup_model limTab mk SO z none none piv (some ms) (some fbs) ex k_min k_max n) = true) ∧
    (∀ i, i < n → itp (optimal_mass_funct (kAt k_min k_max n i) (paramsFrom T z)) = none →
      (supOf (sup_model limTab mk SO z none none piv (some ms) (some fbs) ex k_min k_max n))[i]? =
          some none ∧
      outMinB ((itp (optimal_mass_funct (kAt k_min k_max n i) (paramsFrom T z))).map
          (fun y => (10 : ℝ) ^ y))
        (loAt L z ((10 : ℝ) ^ optimal_mass_funct (kAt k_min k_max n i) (paramsFrom T z))) = false ∧
      outMaxB ((itp (optimal_mass_funct (kAt k_min k_max n i) (paramsFrom T z))).map
          (fun y => (10 : ℝ) ^ y))
        (hiAt L z ((10 : ℝ) ^ optimal_mass_funct (kAt k_min k_max n i) (paramsFrom T z))) = false) ∧
    ((∀ i, i < n → itp (optimal_mass_funct (kAt k_min k_max n i) (paramsFrom T z)) = none) →
      SpkWarning.fbBelowMin ∉
        warnsOf (sup_model limTab mk SO z none none piv (some ms) (some fbs) ex k_min k_max n) ∧
      SpkWarning.fbAboveMax ∉
        warnsOf (sup_model limTab mk SO z none none piv (some ms) (some fbs) ex k_min k_max n)) := by
  have hres : resolveFb none none piv (some ms) (some fbs) mk ex
      (fun j => optimal_mass_funct (kAt k_min k_max n j) (paramsFrom T z)) =
      .ok (fun j => (itp (optimal_mass_funct (kAt k_min k_max n j) (paramsFrom T z))).map
        (fun y => (10 : ℝ) ^ y)) :=
    resolveFb_tabulated rfl rfl hmk
  rw [sup_model_ok hz0 hz3 hk hbf hlim hres]
  refine ⟨rfl, fun i hi hnan => ?_, fun hall => ?_⟩
  · refine ⟨?_, by rw [hnan, Option.map_none', outMinB_none_fb],
      by rw [hnan, Option.map_none', outMaxB_none_fb]⟩
    rw [supOf, getElem?_map_range _ hi]
    refine congrArg some ?_
    rw [supEntry, hnan, Option.map_none', outMinB_none_fb, outMaxB_none_fb]
    rfl
  · constructor
    · rw [warnsOf, mem_warns_below]
      intro hany
      obtain ⟨i, hmem, hout⟩ := List.any_eq_true.mp hany
      rw [List.mem_range] at hmem
      rw [hall i hmem, Option.map_none', outMinB_none_fb] at hout
      exact Bool.noConfusion hout
    · rw [warnsOf, mem_warns_above]
      intro hany
      obtain ⟨i, hmem, hout⟩ := List.any_eq_true.mp hany
      rw [List.mem_range] at hmem
      rw [hall i hmem, Option.map_none', outMaxB_none_fb] at hout
      exact Bool.noConfusion hout

/-- Witness for C10: the everywhere-NaN interpolant stand-in `mkNaN` with
`M_halo = fb = [1, 2]` — the call returns normally, its first entry is NaN,
and no out-of-limits warning is present. -/
theorem C10_nan_interpolation_witness :
    isOk (sup_model specLimits mkNaN 200 1 none none 1 (some [1, 2]) (some [1, 2]) false 0.1 8 1) = true ∧
    (supOf (sup_model specLimits mkNaN 200 1 none none 1 (some [1, 2]) (some [1, 2]) false 0.1 8 1))[0]? =
      some none ∧
    SpkWarning.fbBelowMin ∉
      warnsOf (sup_model specLimits mkNaN 200 1 none none 1 (some [1, 2]) (some [1, 2]) false 0.1 8 1) := by
  have h := C10_nan_interpolation specLimits mkNaN 200 1 1 [1, 2] [1, 2] false 0.1 8 1
    table200 specLimitInterp (fun _ => none) (by norm_num) (by norm_num) (by norm_num)
    best_fit_vals_200 specLimits_200 rfl
  exact ⟨h.1, (h.2.1 0 (by norm_num) rfl).1, (h.2.2 (fun i hi => rfl)).1⟩

theorem le_roundHalfEven (y : ℝ) : ⌊y⌋ ≤ roundHalfEven y := by
  unfold roundHalfEven
  split
  · split
    · exact le_refl _
    · exact le_of_lt (lt_add_one _)
  · rw [round_eq]
    exact Int.floor_mono (by linarith)

theorem roundHalfEven_le (y : ℝ) : roundHalfEven y ≤ ⌊y⌋ + 1 := by
  unfold roundHalfEven
  split
  · split
    · exact le_of_lt (lt_add_one _)
    · exact le_refl _
  · rw [round_eq]
    have h := Int.lt_floor_add_one y
    have h2 : ⌊y + 1 / 2⌋ < ⌊y⌋ + 2 := Int.floor_lt.mpr (by push_cast; linarith)
    omega

/-- Rounding half to even is monotone. -/
theorem roundHalfEven_mono {x y : ℝ} (h : x ≤ y) : roundHalfEven x ≤ roundHalfEven y := by
  rcases lt_or_le ⌊x⌋ ⌊y⌋ with hf | hf
  · calc roundHalfEven x ≤ ⌊x⌋ + 1 := roundHalfEven_le x
      _ ≤ ⌊y⌋ := by omega
      _ ≤ roundHalfEven y := le_roundHalfEven y
  · have hfe : ⌊x⌋ = ⌊y⌋ := le_antisymm (Int.floor_mono h) hf
    have hfr : Int.fract x ≤ Int.fract y := by
      rw [← Int.self_sub_floor, ← Int.self_sub_floor, hfe]
      exact sub_le_sub_right h _
    unfold roundHalfEven
    by_cases tx : Int.fract x = 1 / 2 <;> by_cases ty : Int.fract y = 1 / 2
    · have hxy : x = y := by
        have hx' := Int.floor_add_fract x
        have hy' := Int.floor_add_fract y
        rw [tx] at hx'
        rw [ty] at hy'
        rw [← hx', ← hy', hfe]
      rw [hxy]
    · have h2 : 1 / 2 < Int.fract y := lt_of_le_of_ne (tx ▸ hfr) (Ne.symm ty)
      rw [if_pos tx, if_neg ty, round_eq]
      have hy' := Int.floor_add_fract y
      have hfe' : (⌊x⌋ : ℝ) = (⌊y⌋ : ℝ) := by exact_mod_cast hfe
      have h4 : ⌊x⌋ + 1 ≤ ⌊y + 1 / 2⌋ := Int.le_floor.mpr (by push_cast; linarith)
      split <;> omega
    · have h2 : Int.fract x < 1 / 2 := lt_of_le_of_ne (ty ▸ hfr) tx
      rw [if_neg tx, if_pos ty, round_eq]
      have hx' := Int.floor_add_fract x
      have h3 : ⌊x + 1 / 2⌋ < ⌊x⌋ + 1 := Int.floor_lt.mpr (by push_cast; linarith)
      split <;> omega
    · rw [if_neg tx, if_neg ty, round_eq, round_eq]
      exact Int.floor_mono (by linarith)

theorem round6_mono {x y : ℝ} (h : x ≤ y) : round6 x ≤ round6 y := by
  unfold round6
  have h1 := roundHalfEven_mono (mul_le_mul_of_nonneg_right h (by norm_num : (0 : ℝ) ≤ 10 ^ 6))
  have h2 : ((roundHalfEven (x * 10 ^ 6) : ℝ)) ≤ (roundHalfEven (y * 10 ^ 6) : ℝ) := by
    exact_mod_cast h1
  exact (div_le_div_iff_of_pos_right (by norm_num)).mpr h2

theorem kExact_zero {k_min k_max : ℝ} {n : ℕ} (h : 0 < k_min) :
    kExact k_min k_max n 0 = k_min := by
  unfold kExact
  rw [Nat.cast_zero, zero_mul, zero_div, add_zero]
  exact Real.rpow_logb (by norm_num) (by norm_num) h

theorem kExact_last {k_min k_max : ℝ} {n : ℕ} (h : 0 < k_max) (hn : 2 ≤ n) :
    kExact k_min k_max n (n - 1) = k_max := by
  unfold kExact
  rw [Nat.cast_sub (by omega : 1 ≤ n), Nat.cast_one]
  have hne : (n : ℝ) - 1 ≠ 0 := by
    have : (2 : ℝ) ≤ (n : ℝ) := by exact_mod_cast hn
    linarith
  have hexp : Real.logb 10 k_min +
      ((n : ℝ) - 1) * (Real.logb 10 k_max - Real.logb 10 k_min) / ((n : ℝ) - 1) =
      Real.logb 10 k_max := by
    field_simp
  rw [hexp]
  exact Real.rpow_logb (by norm_num) (by norm_num) h

theorem kExact_strictMono {k_min k_max : ℝ} {n i j : ℕ}
    (hkmin : 0 < k_min) (hkk : k_min < k_max) (hij : i < j) (hj : j < n) :
    kExact k_min k_max n i < kExact k_min k_max n j := by
  unfold kExact
  rw [Real.rpow_lt_rpow_left_iff (by norm_num : (1 : ℝ) < 10)]
  have hBA : 0 < Real.logb 10 k_max - Real.logb 10 k_min := by
    have h10 : Real.logb 10 k_min < Real.logb 10 k_max :=
      Real.logb_lt_logb (by norm_num) hkmin hkk
    linarith
  have hden : (0 : ℝ) < (n : ℝ) - 1 := by
    have : (2 : ℝ) ≤ (n : ℝ) := by exact_mod_cast (by omega : (2 : ℕ) ≤ n)
    linarith
  have hij' : (i : ℝ) < (j : ℝ) := by exact_mod_cast hij
  have hstep : (i : ℝ) * (Real.logb 10 k_max - Real.logb 10 k_min) / ((n : ℝ) - 1) <
      (j : ℝ) * (Real.logb 10 k_max - Real.logb 10 k_min) / ((n : ℝ) - 1) :=
    (div_lt_div_iff_of_pos_right hden).mpr (mul_lt_mul_of_pos_right hij' hBA)
  linarith

theorem kExact_ratio {k_min k_max : ℝ} {n : ℕ} (i : ℕ) :
    kExact k_min k_max n (i + 1) / kExact k_min k_max n i =
      (10 : ℝ) ^ ((Real.logb 10 k_max - Real.logb 10 k_min) / ((n : ℝ) - 1)) := by
  unfold kExact
  rw [← Real.rpow_sub (by norm_num : (0 : ℝ) < 10)]
  congr 1
  push_cast
  ring

theorem kAt_mono {k_min k_max : ℝ} {n i j : ℕ}
    (hkmin : 0 < k_min) (hkk : k_min < k_max) (hij : i ≤ j) (hj : j < n) :
    kAt k_min k_max n i ≤ kAt k_min k_max n j := by
  rcases eq_or_lt_of_le hij with rfl | hlt
  · exact le_refl _
  · exact round6_mono (le_of_lt (kExact_strictMono hkmin hkk hlt hj))

/-- C3 (amended): for a valid call with `0 < k_min < k_max` and `n ≥ 2`, the
returned wavenumber array is the exact log-uniform grid rounded entrywise to
six decimals (numpy `round`, half to even): it has exactly `n` entries, each
`round6` of the exact point; the exact grid is strictly increasing, has a
constant consecutive ratio `10^((log10 k_max - log10 k_min)/(n-1))`, and
starts and ends exactly at `k_min` and `k_max`; the returned (rounded)
entries are non-decreasing.  Exact strict increase, exact spacing, and exact
endpoints hold only before rounding. -/
theorem C3_grid (limTab : ℕ → Option LimitInterp)
    (mk : Bool → List ℝ → List ℝ → Option (ℝ → Option ℝ))
    (SO : ℕ) (z : ℝ) (a pw piv : ℝ) (Mh fbt : Option (List ℝ)) (ex : Bool)
    (k_min k_max : ℝ) (n : ℕ) (T : ParamTable) (L : LimitInterp)
    (hz0 : 0 ≤ z) (hz3 : z ≤ 3) (hk : k_max ≤ 12)
    (hbf : best_fit_vals SO = some T) (hlim : limTab SO = some L) (ha : a ≠ 0)
    (hkmin : 0 < k_min) (hkk : k_min < k_max) (hn : 2 ≤ n) :
    (kOf (sup_model limTab mk SO z (some a) (some pw) piv Mh fbt ex k_min k_max n) =
      kGrid k_min k_max n) ∧
    ((kGrid k_min k_max n).length = n) ∧
    (∀ i, i < n → (kGrid k_min k_max n)[i]? = some (round6 (kExact k_min k_max n i))) ∧
    (kExact k_min k_max n 0 = k_min) ∧
    (kExact k_min k_max n (n - 1) = k_max) ∧
    (∀ i j, i < j → j < n → kExact k_min k_max n i < kExact k_min k_max n j) ∧
    (∀ i, kExact k_min k_max n (i + 1) / kExact k_min k_max n i =
      (10 : ℝ) ^ ((Real.logb 10 k_max - Real.logb 10 k_min) / ((n : ℝ) - 1))) ∧
    (∀ i j, i ≤ j → j < n → kAt k_min k_max n i ≤ kAt k_min k_max n j) := by
  refine ⟨?_, by simp [kGrid], fun i hi => ?_, kExact_zero hkmin,
    kExact_last (lt_trans hkmin hkk) hn,
    fun i j hij hj => kExact_strictMono hkmin hkk hij hj,
    fun i => kExact_ratio i,
    fun i j hij hj => kAt_mono hkmin hkk hij hj⟩
  · rw [sup_model_ok hz0 hz3 hk hbf hlim
      (resolveFb_powerlaw (by rw [truthyB_of_ne ha, Bool.true_or]))]
    rfl
  · rw [kGrid, getElem?_map_range _ hi]
    rfl

/-- Witness for C3 at `k_min = 0.1`, `k_max = 8`, `n = 2`: the returned grid
is the rounded exact grid, whose endpoints are exactly `0.1` and `8`. -/
theorem C3_grid_witness :
    kOf (sup_model specLimits mkNone 200 1 (some 1) (some 0) 1 none none false 0.1 8 2) =
      kGrid 0.1 8 2 ∧
    kExact 0.1 8 2 0 = 0.1 ∧
    kExact 0.1 8 2 1 = 8 := by
  have h := C3_grid specLimits mkNone 200 1 1 0 1 none none false 0.1 8 2
    table200 specLimitInterp (by norm_num) (by norm_num) (by norm_num)
    best_fit_vals_200 specLimits_200 (by norm_num) (by norm_num) (by norm_num) (by norm_num)
  exact ⟨h.1, h.2.2.2.1, h.2.2.2.2.1⟩

/-- Counterexample for C3: the grid is rounded to six decimals
(`np.round(..., 6)` on line 321), so for the valid call with
`k_min = 0.1234567` the first returned wavenumber is `0.123457`, not
`k_min` — the claimed exact endpoint (and with it exact log-uniform spacing)
fails. -/
theorem C3_grid_counterexample :
    (kOf (sup_model specLimits mkNone 200 1 (some 1) (some 0) 1 none none false 0.1234567 8 2))[0]? ≠
      some (0.1234567 : ℝ) := by
  have hok : kOf (sup_model specLimits mkNone 200 1 (some 1) (some 0) 1 none none false 0.1234567 8 2) =
      kGrid 0.1234567 8 2 := by
    rw [sup_model_ok (by norm_num) (by norm_num) (by norm_num) best_fit_vals_200 specLimits_200
      (resolveFb_powerlaw (by rw [truthyB_of_ne one_ne_zero, Bool.true_or]))]
    rfl
  rw [hok, kGrid, getElem?_map_range _ (by norm_num : (0 : ℕ) < 2), kAt,
    kExact_zero (by norm_num)]
  have hmul : (0.1234567 : ℝ) * 10 ^ 6 = 123456.7 := by norm_num
  have hfl : ⌊(123456.7 : ℝ)⌋ = 123456 := by
    rw [Int.floor_eq_iff]
    constructor <;> norm_num
  have hfr : Int.fract (123456.7 : ℝ) ≠ 1 / 2 := by
    rw [← Int.self_sub_floor, hfl]
    norm_num
  have hrd : round (123456.7 : ℝ) = 123457 := by
    rw [round_eq, show (123456.7 : ℝ) + 1 / 2 = 123457.2 by norm_num, Int.floor_eq_iff]
    constructor <;> norm_num
  rw [round6, hmul, roundHalfEven, if_neg hfr, hrd]
  intro hcontra
  rw [Option.some_inj] at hcontra
  norm_num at hcontra

end Spk
